import Mathlib

/-!
Shallow embedding of the session and access-token lifecycle of the
web-messages-service backend (src/src/models/user.ts,
src/src/controllers/auth.ts, src/src/middleware/auth.ts and the
revision of the middleware that resolves through the user model).

Timestamps are natural numbers in seconds.  JSON Web Tokens are modelled
as records carrying their claims, issued-at time, expiry, the secret they
were signed with and a well-formedness flag; `jwtVerify` mirrors
jsonwebtoken's `verify` (signature + expiry check, distinguishing the
expired error from the generic invalid-token error, exactly the two
error classes the library throws).  SHA-256 of a raw token is modelled
as an injective tagging of the token value (`Digest.mk`), which is sound
because the code only ever compares digests for equality.  bcrypt
hashing is modelled the same way.  Each SQL statement issued by the
TypeScript code is embedded as an explicit function on a `DB` state.
-/

/-- Access-token lifetime: jwt `expiresIn: '1h'`. -/
def accessTokenLifetime : Nat := 3600

/-- Refresh-token lifetime: jwt `expiresIn: '7d'`, and the sessions-table
`expires_at = now + 7 days` in `storeRefreshToken`. -/
def refreshTokenLifetime : Nat := 604800

/-- Password-reset token window in `completePasswordReset`: one hour. -/
def resetTokenWindow : Nat := 3600

/-- JWT claims as the code reads them after `jwt.verify`: any of the three
fields may be absent (e.g. a refresh token carries only `userId`). -/
structure Claims where
  userId : Option String
  verified : Option Bool
  tokenVersion : Option Nat
deriving DecidableEq

/-- A signed compact token: claims, issued-at, expiry, signing secret and
well-formedness (a garbage string is a token with `wellFormed = false`). -/
structure Token where
  claims : Claims
  iat : Nat
  exp : Nat
  secret : String
  wellFormed : Bool
deriving DecidableEq

/-- The two error classes jsonwebtoken's `verify` throws:
`TokenExpiredError` and the generic `JsonWebTokenError`. -/
inductive JwtError where
  | expired
  | invalid
deriving DecidableEq

/-- `jwt.verify(token, secret)` at time `now`: signature (secret match and
well-formedness) and expiry are checked here, nowhere else. -/
def jwtVerify (t : Token) (secret : String) (now : Nat) : Except JwtError Claims :=
  if t.wellFormed && t.secret == secret then
    if now < t.exp then Except.ok t.claims else Except.error JwtError.expired
  else
    Except.error JwtError.invalid

/-- SHA-256 digest of a raw token, modelled as injective tagging
(`crypto.createHash('sha256').update(token).digest('hex')`). -/
structure Digest where
  tok : Token
deriving DecidableEq

/-- The digest computation applied to a raw refresh token. -/
def sha256 (t : Token) : Digest := Digest.mk t

/-- bcrypt.hash(plaintext, 12), modelled as injective tagging. -/
def bcryptHash (plaintext : String) : String := "bcrypt12$" ++ plaintext

/-- Projection of the `users` row onto the columns the auth flows touch
(`User.parseRow` fields that `generateTokens`, `validateAccessToken`,
`revokeAllSessions` and `completePasswordReset` read or write). -/
structure UserRec where
  id : String
  hashedPassword : String
  tokenVersion : Nat
  verified : Bool
  resetPasswordToken : Option String
  resetPasswordTokenTimestamp : Option Nat
deriving DecidableEq

/-- One row of the `sessions` table. -/
structure SessionRec where
  sessionId : Nat
  userId : String
  rtHash : Digest
  userAgent : Option String
  ip : Option String
  createdAt : Nat
  expiresAt : Nat
  revokedAt : Option Nat
deriving DecidableEq

/-- The durable state the core owns: the `users` table and the `sessions`
table (plus the sequence behind `session_id`). -/
structure DB where
  users : List UserRec
  sessions : List SessionRec
  nextSessionId : Nat
deriving DecidableEq

/-- The partial-update patch of `User.update`, restricted to the columns
the auth flows write (`token_version`, `hashed_password`,
`reset_password_token`); a present key is written, an absent key is left
alone, and `resetPasswordToken` can be present-and-null. -/
structure AccountPatch where
  hashedPassword : Option String
  tokenVersion : Option Nat
  resetPasswordToken : Option (Option String)
deriving DecidableEq

/-- Apply an `AccountPatch` to a row, as the generated
`UPDATE users SET ...` does. -/
def applyPatch (u : UserRec) (p : AccountPatch) : UserRec :=
  { u with
    hashedPassword := p.hashedPassword.getD u.hashedPassword
    tokenVersion := p.tokenVersion.getD u.tokenVersion
    resetPasswordToken := p.resetPasswordToken.getD u.resetPasswordToken }

/-- `SELECT * FROM users WHERE user_id = $1` (`User.findById`). -/
def findById (id : String) (db : DB) : Option UserRec :=
  db.users.find? (fun u => u.id == id)

/-- `User.update(patch)`: `UPDATE users SET ... WHERE user_id = $n
RETURNING *`.  Returns the fresh row (`none` models the thrown
"Failed to update user." when no row matches). -/
def userUpdate (id : String) (p : AccountPatch) (db : DB) : Option UserRec × DB :=
  match findById id db with
  | none => (none, db)
  | some u =>
    (some (applyPatch u p),
     { db with users := db.users.map (fun v => if v.id == id then applyPatch v p else v) })

/-- `User.storeRefreshToken`: hash the raw refresh token and
`INSERT INTO sessions (user_id, rt_hash, user_agent, ip, expires_at)`
with `expires_at = now + 7 days`.  Returns the new session id. -/
def storeRefreshToken (userId : String) (rt : Token) (userAgent ip : Option String)
    (now : Nat) (db : DB) : Nat × DB :=
  let rtHash := sha256 rt
  (db.nextSessionId,
   { db with
     sessions := db.sessions ++
       [{ sessionId := db.nextSessionId, userId := userId, rtHash := rtHash,
          userAgent := userAgent, ip := ip, createdAt := now,
          expiresAt := now + refreshTokenLifetime, revokedAt := none }]
     nextSessionId := db.nextSessionId + 1 })

/-- The access-token payload `jwt.sign`ed in `generateTokens`:
`{userId, verified: this.verified || false, tokenVersion}`, 1 hour. -/
def signAccessToken (u : UserRec) (secret : String) (now : Nat) : Token :=
  { claims := { userId := some u.id, verified := some u.verified,
                tokenVersion := some u.tokenVersion }
    iat := now, exp := now + accessTokenLifetime, secret := secret, wellFormed := true }

/-- The refresh-token payload `jwt.sign`ed in `generateTokens`:
`{userId}` only (no tokenVersion), 7 days. -/
def signRefreshToken (u : UserRec) (secret : String) (now : Nat) : Token :=
  { claims := { userId := some u.id, verified := none, tokenVersion := none }
    iat := now, exp := now + refreshTokenLifetime, secret := secret, wellFormed := true }

/-- `user.generateTokens(options)`: `await this.reload()` (a fresh point
read of the user row), sign both tokens from the re-read row, store the
refresh token's digest as a new session row, return the pair.  `none`
models the throw when the reload finds no row. -/
def generateTokens (userId : String) (userAgent ip : Option String) (secret : String)
    (now : Nat) (db : DB) : Option (Token × Token) × DB :=
  match findById userId db with
  | none => (none, db)
  | some u =>
    let accessToken := signAccessToken u secret now
    let refreshToken := signRefreshToken u secret now
    let db2 := (storeRefreshToken u.id refreshToken userAgent ip now db).2
    (some (accessToken, refreshToken), db2)

/-- The `if (!decoded.userId) return null` truthiness check: absent or
empty-string userId both fail. -/
def presentUserId (c : Claims) : Option String :=
  match c.userId with
  | none => none
  | some s => if s = "" then none else some s

/-- Database accesses performed by an operation, for footprint
accounting: point reads of a user row, session-table reads, and writes. -/
inductive DbOp where
  | userRead (id : String)
  | sessionRead (h : Digest)
  | userWrite (id : String)
  | sessionWrite
deriving DecidableEq

/-- `User.validateAccessToken`: verify JWT signature/expiry, reject falsy
userId, one point read of the user row (`findById`), reject when the
embedded tokenVersion differs from the row's current one.  Every failure
(the try/catch included) returns `none`; alongside the result we record
the list of database accesses performed. -/
def validateAccessToken (tok : Token) (secret : String) (now : Nat) (db : DB) :
    Option UserRec × List DbOp :=
  match jwtVerify tok secret now with
  | Except.error _ => (none, [])
  | Except.ok claims =>
    match presentUserId claims with
    | none => (none, [])
    | some uid =>
      match findById uid db with
      | none => (none, [DbOp.userRead uid])
      | some user =>
        if claims.tokenVersion = some user.tokenVersion then (some user, [DbOp.userRead uid])
        else (none, [DbOp.userRead uid])

/-- `SELECT * FROM sessions WHERE rt_hash = $1 AND revoked_at IS NULL
AND expires_at > NOW()`. -/
def liveSessions (h : Digest) (now : Nat) (db : DB) : List SessionRec :=
  db.sessions.filter (fun s => s.rtHash == h && s.revokedAt == none && now < s.expiresAt)

/-- `User.validateRefreshToken`: verify JWT signature/expiry, reject falsy
userId, require a matching live session row, then load the user.
tokenVersion is deliberately not checked (refresh tokens do not carry
it).  Every failure returns `none` (the try/catch included). -/
def validateRefreshToken (tok : Token) (secret : String) (now : Nat) (db : DB) :
    Option UserRec :=
  match jwtVerify tok secret now with
  | Except.error _ => none
  | Except.ok claims =>
    match presentUserId claims with
    | none => none
    | some uid =>
      if (liveSessions (sha256 tok) now db).isEmpty then none
      else findById uid db

/-- `UPDATE sessions SET revoked_at = NOW() WHERE rt_hash = $1`
(the body of `User.revokeSession`): unconditional, no
`revoked_at IS NULL` guard, affected-row count discarded. -/
def revokeSession (tok : Token) (now : Nat) (db : DB) : DB :=
  { db with
    sessions := db.sessions.map
      (fun s => if s.rtHash == sha256 tok then { s with revokedAt := some now } else s) }

/-- `UPDATE sessions SET revoked_at = NOW() WHERE user_id = $1`
(the session sweep inside `revokeAllSessions`): also unconditional. -/
def revokeAllRows (userId : String) (now : Nat) (db : DB) : DB :=
  { db with
    sessions := db.sessions.map
      (fun s => if s.userId == userId then { s with revokedAt := some now } else s) }

/-- The patch object `{ tokenVersion: newVersion }` that
`revokeAllSessions` passes to `User.update`: only the version key is
present, and it carries a value precomputed by the caller. -/
def bumpPatch (v : Nat) : AccountPatch :=
  { hashedPassword := none, tokenVersion := some v, resetPasswordToken := none }

/-- The patch object `{hashedPassword, resetPasswordToken: null,
tokenVersion}` that `completePasswordReset` passes to `User.update`. -/
def resetPatch (hp : String) (v : Nat) : AccountPatch :=
  { hashedPassword := some hp, tokenVersion := some v, resetPasswordToken := some none }

/-- `user.revokeAllSessions()`: compute `newVersion = (this.tokenVersion
|| 0) + 1` from the in-memory object (a read-then-write, not an atomic
increment at the storage layer), write it via `User.update`, then revoke
every session row of the user.  Returns the refreshed user object. -/
def revokeAllSessions (this : UserRec) (now : Nat) (db : DB) : Option UserRec × DB :=
  match userUpdate this.id (bumpPatch (this.tokenVersion + 1)) db with
  | (none, db1) => (none, db1)
  | (some fresh, db1) => (some fresh, revokeAllRows this.id now db1)

/-- The expiry check of `completePasswordReset`:
`this.resetPasswordTokenTimestamp.getTime() < Date.now() - expiryMs`,
one-hour window, vacuously fresh when no timestamp is set. -/
def resetTokenExpired (this : UserRec) (now : Nat) : Bool :=
  match this.resetPasswordTokenTimestamp with
  | some ts => decide (ts + resetTokenWindow < now)
  | none => false

/-- `user.completePasswordReset(token, newPassword)`: reload, check the
stored reset token (falsy and mismatch both throw), check the one-hour
window, write `{hashedPassword, resetPasswordToken: null, tokenVersion:
v+1}` in one update, then call `revokeAllSessions` on the refreshed
object (which bumps the version a second time). -/
def completePasswordReset (userId : String) (token : String) (newPassword : String)
    (now : Nat) (db : DB) : Option UserRec × DB :=
  match findById userId db with
  | none => (none, db)
  | some this =>
    match this.resetPasswordToken with
    | none => (none, db)
    | some rpt =>
      if rpt = "" then (none, db)
      else if token ≠ rpt then (none, db)
      else if resetTokenExpired this now then (none, db)
      else
        match userUpdate this.id
            (resetPatch (bcryptHash newPassword) (this.tokenVersion + 1)) db with
        | (none, db1) => (none, db1)
        | (some fresh, db1) => revokeAllSessions fresh now db1

/-- What the `refreshSession` controller can send back: a fresh pair, a
400, the uniform `RequestError.notAuthorized()` (there is no distinct
expired/revoked/not-found variant anywhere in the controller), or a 500. -/
inductive RefreshResult where
  | success (user : UserRec) (accessToken : Token) (refreshToken : Token)
  | badRequest
  | notAuthorized
  | serverError
deriving DecidableEq

/-- Whether a `RefreshResult` is the 200 success response. -/
def RefreshResult.isSuccess : RefreshResult → Bool
  | RefreshResult.success _ _ _ => true
  | _ => false

/-- The tail of the `refreshSession` controller after
`validateRefreshToken` has produced `v`: on failure it still calls
`User.revokeSession` on the presented token before returning
`notAuthorized`; on success it revokes the presented token
(unconditionally, without checking affected rows) and issues a fresh
pair via `generateTokens`. -/
def redeemSteps (t : Token) (v : Option UserRec) (userAgent ip : Option String)
    (secret : String) (now : Nat) (db : DB) : RefreshResult × DB :=
  match v with
  | none => (RefreshResult.notAuthorized, revokeSession t now db)
  | some user =>
    let db1 := revokeSession t now db
    match generateTokens user.id userAgent ip secret now db1 with
    | (none, db2) => (RefreshResult.serverError, db2)
    | (some (a, r), db2) => (RefreshResult.success user a r, db2)

/-- The `refreshSession` controller (`POST /auth/refresh`): missing or
non-string body token is a 400; otherwise validate the refresh token and
run the redeem tail. -/
def refreshSession (tok : Option Token) (userAgent ip : Option String)
    (secret : String) (now : Nat) (db : DB) : RefreshResult × DB :=
  match tok with
  | none => (RefreshResult.badRequest, db)
  | some t => redeemSteps t (validateRefreshToken t secret now db) userAgent ip secret now db

/-- Responses of the `logOutEverywhere` controller. -/
inductive SimpleResult where
  | ok
  | notAuthorized
  | accountDoesNotExist
  | serverError
deriving DecidableEq

/-- The `logOutEverywhere` controller: load the authenticated user with
`findById`, then `user.revokeAllSessions()`. -/
def logOutEverywhere (reqUserId : Option String) (now : Nat) (db : DB) :
    SimpleResult × DB :=
  match reqUserId with
  | none => (SimpleResult.notAuthorized, db)
  | some uid =>
    match findById uid db with
    | none => (SimpleResult.accountDoesNotExist, db)
    | some user =>
      match revokeAllSessions user now db with
      | (none, db1) => (SimpleResult.serverError, db1)
      | (some _, db1) => (SimpleResult.ok, db1)

/-- What the authentication middleware leaves on the request. -/
structure ReqAuth where
  userId : Option String
  verified : Option Bool
deriving DecidableEq

/-- The `authentication` middleware of src/src/middleware/auth.ts: verify
the JWT and copy `decodedToken.userId` / `decodedToken.verified` onto
the request.  It performs no database access and never compares the
embedded tokenVersion against the user's current one. -/
def authentication (authHeader : Option Token) (secret : String) (now : Nat) : ReqAuth :=
  match authHeader with
  | none => { userId := none, verified := none }
  | some tok =>
    match jwtVerify tok secret now with
    | Except.error _ => { userId := none, verified := none }
    | Except.ok claims => { userId := claims.userId, verified := claims.verified }

/-- The revised `authentication` middleware (the revision whose unit test
spies on `User.validateAccessToken`): resolve the bearer token through
`validateAccessToken` and copy the resolved user's id and verified flag;
every failure leaves `userId = null`. -/
def authenticationResolve (authHeader : Option Token) (secret : String) (now : Nat)
    (db : DB) : ReqAuth :=
  match authHeader with
  | none => { userId := none, verified := none }
  | some tok =>
    match (validateAccessToken tok secret now db).1 with
    | none => { userId := none, verified := none }
    | some user => { userId := some user.id, verified := some user.verified }

/-- One legal interleaving of two concurrent `refreshSession` calls
presenting the same raw token: both `validateRefreshToken` reads complete
(awaited I/O) before either caller's revoke-and-reissue tail runs. -/
def refreshSessionRace (t : Token) (userAgent ip : Option String) (secret : String)
    (now : Nat) (db : DB) : RefreshResult × RefreshResult × DB :=
  let vA := validateRefreshToken t secret now db
  let vB := validateRefreshToken t secret now db
  let a := redeemSteps t vA userAgent ip secret now db
  let b := redeemSteps t vB userAgent ip secret now a.2
  (a.1, b.1, b.2)

/-- One legal interleaving of two concurrent `logOutEverywhere` calls for
the same user: both `findById` reads complete before either
`revokeAllSessions` (which writes the version computed from its own
stale read) runs. -/
def logOutEverywhereRace (uid : String) (now : Nat) (db : DB) : DB :=
  match findById uid db, findById uid db with
  | some uA, some uB => (revokeAllSessions uB now (revokeAllSessions uA now db).2).2
  | _, _ => db

/-! Concrete fixtures used by witnesses and counterexamples. -/

/-- Fixture user `u1`, tokenVersion 0, with a pending password-reset token. -/
def u0 : UserRec :=
  { id := "u1", hashedPassword := "h", tokenVersion := 0, verified := true,
    resetPasswordToken := some "rst", resetPasswordTokenTimestamp := none }

/-- Fixture signing secret. -/
def secret0 : String := "s"

/-- Refresh token issued to `u0` at time 0. -/
def rt0 : Token := signRefreshToken u0 secret0 0

/-- The session row created when `rt0` was issued. -/
def sess0 : SessionRec :=
  { sessionId := 0, userId := "u1", rtHash := sha256 rt0, userAgent := none,
    ip := none, createdAt := 0, expiresAt := refreshTokenLifetime, revokedAt := none }

/-- State just after issuing `rt0` to `u0`. -/
def db0 : DB := { users := [u0], sessions := [sess0], nextSessionId := 1 }


/-! Helper lemmas about the embedded operations. -/

/-- `applyPatch` never touches the primary key. -/
@[simp] theorem applyPatch_id (u : UserRec) (p : AccountPatch) :
    (applyPatch u p).id = u.id := rfl

/-- `applyPatch` never touches the verified flag. -/
@[simp] theorem applyPatch_verified (u : UserRec) (p : AccountPatch) :
    (applyPatch u p).verified = u.verified := rfl

/-- A row found by `findById uid` really has `id = uid`. -/
theorem findById_eq_id {uid : String} {db : DB} {u : UserRec}
    (h : findById uid db = some u) : u.id = uid := by
  have hp := List.find?_some h
  simpa using hp

/-- A successful `jwt.verify` yields exactly the token's claims. -/
theorem jwtVerify_ok_claims {t : Token} {s : String} {n : Nat} {c : Claims}
    (h : jwtVerify t s n = Except.ok c) : c = t.claims := by
  unfold jwtVerify at h
  by_cases hw : (t.wellFormed && t.secret == s) = true
  · simp only [hw, if_true] at h
    by_cases hn : n < t.exp
    · simp only [hn, if_true] at h
      exact (Except.ok.inj h).symm
    · simp [hn] at h
  · simp [hw] at h

/-- Storing a refresh token does not change the `users` table. -/
theorem storeRefreshToken_users (userId : String) (rt : Token) (ua ip : Option String)
    (now : Nat) (db : DB) :
    ((storeRefreshToken userId rt ua ip now db).2).users = db.users := rfl

/-- `revokeSession` does not change the `users` table. -/
theorem revokeSession_users (t : Token) (now : Nat) (db : DB) :
    (revokeSession t now db).users = db.users := rfl

/-- `revokeAllRows` does not change the `users` table. -/
theorem revokeAllRows_users (uid : String) (now : Nat) (db : DB) :
    (revokeAllRows uid now db).users = db.users := rfl

/-- `userUpdate` does not change the `sessions` table. -/
theorem userUpdate_sessions (uid : String) (p : AccountPatch) (db : DB) :
    ((userUpdate uid p db).2).sessions = db.sessions := by
  unfold userUpdate
  cases h : findById uid db <;> rfl

/-- `find?` over the row-mapping of a keyed `UPDATE` commutes with the
patch, because the patch never changes the key. -/
theorem find?_map_patch (uid : String) (p : AccountPatch) (l : List UserRec) :
    (l.map (fun v => if v.id == uid then applyPatch v p else v)).find?
        (fun v => v.id == uid)
      = (l.find? (fun v => v.id == uid)).map (fun u => applyPatch u p) := by
  induction l with
  | nil => rfl
  | cons v l ih =>
    have hmap : (v :: l).map (fun w => if w.id == uid then applyPatch w p else w)
        = (if v.id == uid then applyPatch v p else v)
            :: l.map (fun w => if w.id == uid then applyPatch w p else w) := rfl
    rw [hmap]
    by_cases h : v.id = uid
    · have hb : (v.id == uid) = true := beq_iff_eq.mpr h
      have hpa : ((applyPatch v p).id == uid) = true := by simpa using hb
      rw [if_pos hb,
        @List.find?_cons_of_pos UserRec (fun w => w.id == uid) (applyPatch v p)
          (l.map (fun w => if w.id == uid then applyPatch w p else w)) hpa,
        @List.find?_cons_of_pos UserRec (fun w => w.id == uid) v l hb]
      rfl
    · have hb : ¬((v.id == uid) = true) := by
        simp only [beq_iff_eq]
        exact h
      rw [if_neg hb,
        @List.find?_cons_of_neg UserRec (fun w => w.id == uid) v
          (l.map (fun w => if w.id == uid then applyPatch w p else w)) hb,
        @List.find?_cons_of_neg UserRec (fun w => w.id == uid) v l hb]
      exact ih

/-- Reading a user right after a keyed `UPDATE ... RETURNING` of that
user sees exactly the patched row. -/
theorem findById_userUpdate (uid : String) (p : AccountPatch) (db : DB) :
    findById uid ((userUpdate uid p db).2)
      = (findById uid db).map (fun u => applyPatch u p) := by
  cases h : findById uid db with
  | none => simp [userUpdate, h]
  | some u =>
    have hl : db.users.find? (fun v => v.id == uid) = some u := h
    simp only [userUpdate, h, findById, find?_map_patch, hl, Option.map_some]

/-- `liveSessions` is the filter the session lookup query runs. -/
theorem liveSessions_eq (h : Digest) (n : Nat) (db : DB) :
    liveSessions h n db = db.sessions.filter
      (fun s => s.rtHash == h && s.revokedAt == none && n < s.expiresAt) := rfl

/-- With no matching live session row, `validateRefreshToken` fails. -/
theorem validateRefreshToken_none_of_no_live (tok : Token) (secret : String) (now : Nat)
    (db : DB) (h : liveSessions (sha256 tok) now db = []) :
    validateRefreshToken tok secret now db = none := by
  unfold validateRefreshToken
  split
  · rfl
  · split
    · rfl
    · simp [h]

/-- A successful `validateRefreshToken` returned a row of the `users`
table (the `findById` of the embedded userId). -/
theorem validateRefreshToken_some {tok : Token} {secret : String} {now : Nat} {db : DB}
    {u : UserRec} (h : validateRefreshToken tok secret now db = some u) :
    findById u.id db = some u := by
  unfold validateRefreshToken at h
  split at h
  · cases h
  · split at h
    · cases h
    · by_cases hemp : (liveSessions (sha256 tok) now db).isEmpty = true
      · rw [if_pos hemp] at h
        cases h
      · rw [if_neg hemp] at h
        have hid := findById_eq_id h
        rw [hid]
        exact h

/-- Once `revokeSession` ran for a token, no session row with that
token's digest is live, at any later (or earlier) read time. -/
theorem liveSessions_revokeSession (t : Token) (now n2 : Nat) (db : DB) :
    liveSessions (sha256 t) n2 (revokeSession t now db) = [] := by
  unfold liveSessions revokeSession
  rw [List.filter_eq_nil_iff]
  intro s hs
  rcases List.mem_map.mp hs with ⟨s0, _, rfl⟩
  by_cases hm : s0.rtHash = sha256 t
  · simp [hm]
  · simp [hm]

/-- After the keyed revoke-sweep for `uid`, no session row whose digest
only ever belonged to `uid` is live. -/
theorem liveSessions_revokeAllRows (hsh : Digest) (uid : String) (now n2 : Nat) (db : DB)
    (h : ∀ s ∈ db.sessions, s.rtHash = hsh → s.userId = uid) :
    liveSessions hsh n2 (revokeAllRows uid now db) = [] := by
  unfold liveSessions revokeAllRows
  rw [List.filter_eq_nil_iff]
  intro s hs
  rcases List.mem_map.mp hs with ⟨s0, hs0, rfl⟩
  by_cases hu : s0.userId = uid
  · simp [hu]
  · have hne : s0.rtHash ≠ hsh := fun hEq => hu (h s0 hs0 hEq)
    simp [hu, hne]

/-- A failed `validateRefreshToken` makes the controller answer with the
uniform `notAuthorized`. -/
theorem refreshSession_notAuthorized_of_validate_none (t : Token) (ua ip : Option String)
    (secret : String) (now : Nat) (db : DB)
    (h : validateRefreshToken t secret now db = none) :
    (refreshSession (some t) ua ip secret now db).1 = RefreshResult.notAuthorized := by
  simp [refreshSession, h, redeemSteps]


/-- Session-table updates do not affect user lookups. -/
theorem findById_revokeAllRows (uid uid2 : String) (now : Nat) (db : DB) :
    findById uid (revokeAllRows uid2 now db) = findById uid db := rfl

/-- Session-table updates do not affect user lookups. -/
theorem findById_revokeSession (uid : String) (t : Token) (now : Nat) (db : DB) :
    findById uid (revokeSession t now db) = findById uid db := rfl

/-- Session inserts do not affect user lookups. -/
theorem findById_storeRefreshToken (uid uid2 : String) (rt : Token) (ua ip : Option String)
    (now : Nat) (db : DB) :
    findById uid ((storeRefreshToken uid2 rt ua ip now db).2) = findById uid db := rfl

/-- When the caller's user row exists, `revokeAllSessions` succeeds; the
stored tokenVersion afterwards is the caller's cached version plus one
(the patch carries a value precomputed in application code), and the
session table is the keyed revoke-sweep of the old one. -/
theorem revokeAllSessions_found (this : UserRec) (now : Nat) (db : DB) (w : UserRec)
    (h : findById this.id db = some w) :
    ∃ fresh db1, revokeAllSessions this now db = (some fresh, db1)
      ∧ fresh.tokenVersion = this.tokenVersion + 1
      ∧ findById this.id db1 = some fresh
      ∧ db1.sessions = db.sessions.map
          (fun s => if s.userId == this.id then { s with revokedAt := some now } else s) := by
  have h1 : userUpdate this.id (bumpPatch (this.tokenVersion + 1)) db
      = (some (applyPatch w (bumpPatch (this.tokenVersion + 1))),
         { db with users := db.users.map (fun v =>
             if v.id == this.id then applyPatch v (bumpPatch (this.tokenVersion + 1)) else v) }) := by
    unfold userUpdate
    rw [h]
  have h2 := findById_userUpdate this.id (bumpPatch (this.tokenVersion + 1)) db
  rw [h1, h] at h2
  refine ⟨applyPatch w (bumpPatch (this.tokenVersion + 1)),
    revokeAllRows this.id now { db with users := db.users.map (fun v =>
      if v.id == this.id then applyPatch v (bumpPatch (this.tokenVersion + 1)) else v) },
    ?_, rfl, ?_, rfl⟩
  · unfold revokeAllSessions
    rw [h1]
  · rw [findById_revokeAllRows]
    simpa using h2

/-! Additional fixtures for counterexamples and witnesses. -/

/-- State after a password change bumped `u0`'s tokenVersion to 1 (no
sessions left). -/
def dbV1 : DB :=
  { users := [{ u0 with tokenVersion := 1 }], sessions := [], nextSessionId := 1 }

/-- Access token issued to `u0` while its tokenVersion was still 0. -/
def staleAccess : Token := signAccessToken u0 secret0 0

/-- A validly signed refresh token for `u1` that has no session row. -/
def strayRefresh : Token :=
  { claims := { userId := some "u1", verified := none, tokenVersion := none },
    iat := 1, exp := 2 * refreshTokenLifetime, secret := secret0, wellFormed := true }

/-- `db0` with `sess0` already revoked at time 5. -/
def dbRevoked5 : DB :=
  { users := [u0], sessions := [{ sess0 with revokedAt := some 5 }], nextSessionId := 1 }

/-- `sess0` live but its owning user row deleted. -/
def dbOrphan : DB := { users := [], sessions := [sess0], nextSessionId := 1 }

/-- C3: the claim says a stale-version access token never resolves to an
identity.  At the failing input — `u0`'s old access token (embedded
tokenVersion 0, unexpired, validly signed) presented after the user's
tokenVersion became 1 — the `authentication` middleware of
src/src/middleware/auth.ts resolves it to the identity `u1` anyway,
because it never reads the user row or compares versions, while
`User.validateAccessToken` (and the middleware revision built on it)
correctly rejects the same token. -/
theorem authentication_resolves_stale_version_token :
    authentication (some staleAccess) secret0 10
      = { userId := some "u1", verified := some true }
    ∧ (validateAccessToken staleAccess secret0 10 dbV1).1 = none
    ∧ authenticationResolve (some staleAccess) secret0 10 dbV1
      = { userId := none, verified := none } := by
  exact ⟨by decide, by decide, by decide⟩

/-- C5 counterexample: `revokeSession` is an unconditional
`UPDATE ... SET revoked_at = NOW()`: re-running it at time 9 on a
session already revoked at time 5 overwrites the stored `revokedAt`,
so a revokedAt value once set is not immutable and the update is not
guarded by `revoked_at IS NULL`. -/
theorem revokedAt_overwritten_by_second_revoke :
    dbRevoked5.sessions = [{ sess0 with revokedAt := some 5 }]
    ∧ (revokeSession rt0 9 dbRevoked5).sessions
      = [{ sess0 with revokedAt := some 9 }] := by
  exact ⟨by decide, by decide⟩

/-- C5 amended: session rows are mutated only in their `revokedAt` field
— `revokeSession` and `revokeAllSessions` preserve every other field of
every existing row and never insert or delete rows — but the updates are
unconditional overwrites rather than `revokedAt IS NULL`-guarded ones. -/
def onlyRevocationChanged (s s2 : SessionRec) : Prop :=
  s2.sessionId = s.sessionId ∧ s2.userId = s.userId ∧ s2.rtHash = s.rtHash
  ∧ s2.userAgent = s.userAgent ∧ s2.ip = s.ip ∧ s2.createdAt = s.createdAt
  ∧ s2.expiresAt = s.expiresAt

/-- C5 amended, proved: both revocation paths change at most `revokedAt`
of each existing session row. -/
theorem session_mutations_only_touch_revokedAt (t : Token) (u : UserRec)
    (now : Nat) (db : DB) :
    List.Forall₂ onlyRevocationChanged db.sessions (revokeSession t now db).sessions
    ∧ List.Forall₂ onlyRevocationChanged db.sessions
        ((revokeAllSessions u now db).2).sessions := by
  constructor
  · unfold revokeSession
    refine List.forall₂_map_right_iff.mpr (List.forall₂_same.mpr ?_)
    intro s _
    by_cases hm : s.rtHash = sha256 t <;>
      simp [hm, onlyRevocationChanged]
  · unfold revokeAllSessions
    split
    · next db1 heq =>
      have hs : db1.sessions = db.sessions := by
        have h2 := userUpdate_sessions u.id (bumpPatch (u.tokenVersion + 1)) db
        rw [heq] at h2
        exact h2
      rw [hs]
      exact List.forall₂_same.mpr (fun x _ => ⟨rfl, rfl, rfl, rfl, rfl, rfl, rfl⟩)
    · next fresh db1 heq =>
      have hs : db1.sessions = db.sessions := by
        have h2 := userUpdate_sessions u.id (bumpPatch (u.tokenVersion + 1)) db
        rw [heq] at h2
        exact h2
      show List.Forall₂ onlyRevocationChanged db.sessions
        (db1.sessions.map (fun s =>
          if s.userId == u.id then { s with revokedAt := some now } else s))
      rw [hs]
      refine List.forall₂_map_right_iff.mpr (List.forall₂_same.mpr ?_)
      intro s _
      by_cases hm : s.userId = u.id <;>
        simp [hm, onlyRevocationChanged]

/-- C7 counterexample: redeeming `rt0` once its embedded expiry passed
produces the very same uniform `notAuthorized` answer as redeeming a
validly signed token that has no session record at all: the controller
has no distinguished `Expired` failure kind. -/
theorem redeem_expired_not_distinguished :
    (refreshSession (some rt0) none none secret0 refreshTokenLifetime db0).1
      = RefreshResult.notAuthorized
    ∧ (refreshSession (some strayRefresh) none none secret0 10 db0).1
      = RefreshResult.notAuthorized := by
  exact ⟨by decide, by decide⟩

/-- C7 amended: redeem of a refresh token whose embedded expiry is in the
past fails regardless of the session table's contents, but with the
uniform `notAuthorized` used for every refresh-path failure (the
TokenExpiredError is swallowed by validateRefreshToken's catch), not a
distinguished `Expired` kind. -/
theorem redeem_expired_uniform_failure (t : Token) (ua ip : Option String)
    (secret : String) (now : Nat) (db : DB) (h : t.exp ≤ now) :
    (refreshSession (some t) ua ip secret now db).1 = RefreshResult.notAuthorized := by
  apply refreshSession_notAuthorized_of_validate_none
  have hj : jwtVerify t secret now = Except.error JwtError.expired
      ∨ jwtVerify t secret now = Except.error JwtError.invalid := by
    unfold jwtVerify
    by_cases hw : (t.wellFormed && t.secret == secret) = true
    · left
      rw [if_pos hw, if_neg (Nat.not_lt.mpr h)]
    · right
      rw [if_neg hw]
  unfold validateRefreshToken
  rcases hj with hj | hj <;> rw [hj]

/-- C7 amended witness at a concrete input. -/
theorem redeem_expired_uniform_failure_witness :
    (refreshSession (some rt0) none none secret0 refreshTokenLifetime db0).1
      = RefreshResult.notAuthorized :=
  redeem_expired_uniform_failure rt0 none none secret0 refreshTokenLifetime db0 (by decide)

/-- C9: when validation of the presented refresh token fails for any
reason, the controller still calls `User.revokeSession` before answering
`notAuthorized`, so every session row whose stored hash matches the
presented token ends up revoked — a failed redeem can revoke a live
session (e.g. when the owning user row is gone). -/
theorem failed_redeem_still_revokes (t : Token) (ua ip : Option String)
    (secret : String) (now : Nat) (db : DB)
    (h : validateRefreshToken t secret now db = none) :
    (refreshSession (some t) ua ip secret now db).1 = RefreshResult.notAuthorized
    ∧ ∀ s ∈ ((refreshSession (some t) ua ip secret now db).2).sessions,
        s.rtHash = sha256 t → s.revokedAt = some now := by
  constructor
  · exact refreshSession_notAuthorized_of_validate_none t ua ip secret now db h
  · intro s hs hm
    have h2 : (refreshSession (some t) ua ip secret now db).2 = revokeSession t now db := by
      simp [refreshSession, h, redeemSteps]
    rw [h2] at hs
    rcases List.mem_map.mp hs with ⟨s0, _, rfl⟩
    by_cases hm0 : s0.rtHash = sha256 t
    · have hb : (s0.rtHash == sha256 t) = true := beq_iff_eq.mpr hm0
      simp [hb]
    · have hb : ¬ ((s0.rtHash == sha256 t) = true) := by
        simp only [beq_iff_eq]
        exact hm0
      rw [if_neg hb] at hm
      exact absurd hm hm0

/-- C9 witness: in `dbOrphan` the session row is live (unrevoked,
unexpired) but the user row is gone, so validation fails; the failed
redeem nonetheless revokes the live session. -/
theorem failed_redeem_still_revokes_witness :
    validateRefreshToken rt0 secret0 10 dbOrphan = none
    ∧ (liveSessions (sha256 rt0) 10 dbOrphan).length = 1
    ∧ ((refreshSession (some rt0) none none secret0 10 dbOrphan).1
        = RefreshResult.notAuthorized
      ∧ ∀ s ∈ ((refreshSession (some rt0) none none secret0 10 dbOrphan).2).sessions,
          s.rtHash = sha256 rt0 → s.revokedAt = some 10) := by
  exact ⟨by decide, by decide,
    failed_redeem_still_revokes rt0 none none secret0 10 dbOrphan (by decide)⟩

/-- Inversion: a successful access-token validation means the signature
verified, the embedded userId was present and found, and the embedded
tokenVersion matched the current one. -/
theorem validateAccessToken_some {tok : Token} {secret : String} {now : Nat} {db : DB}
    {u : UserRec} {tr : List DbOp}
    (h : validateAccessToken tok secret now db = (some u, tr)) :
    jwtVerify tok secret now = Except.ok tok.claims
    ∧ presentUserId tok.claims = some u.id
    ∧ findById u.id db = some u
    ∧ tok.claims.tokenVersion = some u.tokenVersion := by
  unfold validateAccessToken at h
  split at h
  · simp at h
  · next c heq =>
    have hc : c = tok.claims := jwtVerify_ok_claims heq
    subst hc
    split at h
    · simp at h
    · next uid hp =>
      split at h
      · simp at h
      · next user hf =>
        split at h
        · next hv =>
          have hu : user = u := by
            have := (Prod.mk.injEq _ _ _ _).mp h
            exact Option.some.inj this.1
          subst hu
          have hid := findById_eq_id hf
          refine ⟨heq, ?_, ?_, hv⟩
          · rw [hp, hid]
          · rw [hid]
            exact hf
        · simp at h

/-- The database footprint of `validateAccessToken` is always either
empty or a single point read of one user row. -/
theorem validateAccessToken_trace (tok : Token) (secret : String) (now : Nat) (db : DB) :
    (validateAccessToken tok secret now db).2 = []
    ∨ ∃ uid, (validateAccessToken tok secret now db).2 = [DbOp.userRead uid] := by
  unfold validateAccessToken
  split
  · exact Or.inl rfl
  · split
    · exact Or.inl rfl
    · next uid hp =>
      split
      · exact Or.inr ⟨uid, rfl⟩
      · split
        · exact Or.inr ⟨uid, rfl⟩
        · exact Or.inr ⟨uid, rfl⟩

/-- C6: every failure of per-request identity resolution — absent token,
malformed or badly signed token, expired token, unknown userId, or
tokenVersion mismatch — produces the same indistinguishable `none` (and
the middleware's `userId = null`), never an exception; and the
resolution performs at most one point read of the user record and no
writes (its access trace is at most one `userRead`). -/
theorem resolve_uniform_none_single_read (tok : Token) (secret : String)
    (now : Nat) (db : DB) :
    (validateAccessToken tok secret now db).2.length ≤ 1
    ∧ (∀ op ∈ (validateAccessToken tok secret now db).2, ∃ uid, op = DbOp.userRead uid)
    ∧ (∀ e, jwtVerify tok secret now = Except.error e →
        (validateAccessToken tok secret now db).1 = none)
    ∧ (presentUserId tok.claims = none → (validateAccessToken tok secret now db).1 = none)
    ∧ (∀ uid, presentUserId tok.claims = some uid → findById uid db = none →
        (validateAccessToken tok secret now db).1 = none)
    ∧ (∀ uid user, presentUserId tok.claims = some uid → findById uid db = some user →
        tok.claims.tokenVersion ≠ some user.tokenVersion →
        (validateAccessToken tok secret now db).1 = none)
    ∧ authenticationResolve none secret now db = { userId := none, verified := none }
    ∧ ((validateAccessToken tok secret now db).1 = none →
        authenticationResolve (some tok) secret now db
          = { userId := none, verified := none }) := by
  have hnone : ∀ P : Prop,
      ((∀ u tr, validateAccessToken tok secret now db = (some u, tr) → False) →
        ((validateAccessToken tok secret now db).1 = none)) := by
    intro P habs
    rcases hval : validateAccessToken tok secret now db with ⟨r, tr⟩
    cases r with
    | none => rfl
    | some u => exact absurd hval (fun hv => habs u tr hv)
  refine ⟨?_, ?_, ?_, ?_, ?_, ?_, rfl, ?_⟩
  · rcases validateAccessToken_trace tok secret now db with h | ⟨uid, h⟩ <;> simp [h]
  · intro op hop
    rcases validateAccessToken_trace tok secret now db with h | ⟨uid, h⟩ <;> rw [h] at hop
    · cases hop
    · have : op = DbOp.userRead uid := by
        cases hop with
        | head => rfl
        | tail _ hmem => cases hmem
      exact ⟨uid, this⟩
  · intro e he
    refine hnone True (fun u tr hv => ?_)
    have := (validateAccessToken_some hv).1
    rw [he] at this
    cases this
  · intro hp
    refine hnone True (fun u tr hv => ?_)
    have := (validateAccessToken_some hv).2.1
    rw [hp] at this
    cases this
  · intro uid hp hf
    refine hnone True (fun u tr hv => ?_)
    rcases validateAccessToken_some hv with ⟨_, hp2, hf2, _⟩
    rw [hp] at hp2
    have huid : u.id = uid := (Option.some.inj hp2).symm
    rw [huid] at hf2
    rw [hf] at hf2
    cases hf2
  · intro uid user hp hf hv
    refine hnone True (fun u tr hval => ?_)
    rcases validateAccessToken_some hval with ⟨_, hp2, hf2, hv2⟩
    rw [hp] at hp2
    have huid : u.id = uid := (Option.some.inj hp2).symm
    rw [huid, hf] at hf2
    have hu : user = u := Option.some.inj hf2
    rw [← hu] at hv2
    exact hv hv2
  · intro h
    simp [authenticationResolve, h]

/-- C6 witness at a concrete input: the stale token in `dbV1` has a
footprint of at most one point read and fails resolution (version
mismatch branch, hypotheses discharged by evaluation). -/
theorem resolve_uniform_none_single_read_witness :
    (validateAccessToken staleAccess secret0 10 dbV1).2.length ≤ 1
    ∧ (validateAccessToken staleAccess secret0 10 dbV1).1 = none := by
  refine ⟨(resolve_uniform_none_single_read staleAccess secret0 10 dbV1).1, ?_⟩
  exact (resolve_uniform_none_single_read staleAccess secret0 10 dbV1).2.2.2.2.2.1
    "u1" { u0 with tokenVersion := 1 } (by decide) (by decide) (by decide)

/-- `liveSessions` depends only on the session table. -/
theorem liveSessions_congr (hsh : Digest) (n : Nat) (db1 db2 : DB)
    (h : db1.sessions = db2.sessions) :
    liveSessions hsh n db1 = liveSessions hsh n db2 := by
  unfold liveSessions
  rw [h]

/-- Helper for the logout path: after `logOutEverywhere` succeeds for
user `uid`, every session row of that user carries `revokedAt`, and any
refresh token whose stored hash only ever matched sessions of that user
fails redeem with the controller's session-not-found-or-revoked answer,
at any later time. -/
theorem logout_everywhere_kills_refresh (uid : String) (now n2 : Nat) (db : DB)
    (u : UserRec) (t : Token) (ua ip : Option String) (secret : String)
    (hu : findById uid db = some u)
    (hm : ∀ s ∈ db.sessions, s.rtHash = sha256 t → s.userId = uid) :
    (logOutEverywhere (some uid) now db).1 = SimpleResult.ok
    ∧ (∀ s ∈ ((logOutEverywhere (some uid) now db).2).sessions,
        s.userId = uid → s.revokedAt = some now)
    ∧ validateRefreshToken t secret n2 ((logOutEverywhere (some uid) now db).2) = none
    ∧ (refreshSession (some t) ua ip secret n2 ((logOutEverywhere (some uid) now db).2)).1
      = RefreshResult.notAuthorized := by
  have hid : u.id = uid := findById_eq_id hu
  subst hid
  rcases revokeAllSessions_found u now db u hu with ⟨fresh, db1, hras, _, _, hsess⟩
  have hlo : logOutEverywhere (some u.id) now db = (SimpleResult.ok, db1) := by
    simp only [logOutEverywhere, hu, hras]
  rw [hlo]
  have hrevoked : ∀ s ∈ db1.sessions, s.userId = u.id → s.revokedAt = some now := by
    intro s hs hsu
    rw [hsess] at hs
    rcases List.mem_map.mp hs with ⟨s0, _, rfl⟩
    by_cases h0 : s0.userId = u.id
    · have hb : (s0.userId == u.id) = true := beq_iff_eq.mpr h0
      simp [hb]
    · have hb : ¬ ((s0.userId == u.id) = true) := by
        simp only [beq_iff_eq]
        exact h0
      rw [if_neg hb] at hsu ⊢
      exact absurd hsu h0
  have hlive : liveSessions (sha256 t) n2 db1 = [] := by
    have hcongr : liveSessions (sha256 t) n2 db1
        = liveSessions (sha256 t) n2 (revokeAllRows u.id now db) := by
      apply liveSessions_congr
      rw [hsess]
      rfl
    exact hcongr.trans (liveSessions_revokeAllRows (sha256 t) u.id now n2 db hm)
  have hvr : validateRefreshToken t secret n2 db1 = none :=
    validateRefreshToken_none_of_no_live t secret n2 db1 hlive
  exact ⟨rfl, hrevoked,
    hvr, refreshSession_notAuthorized_of_validate_none t ua ip secret n2 db1 hvr⟩

/-- C8: issuing tokens for a user (which re-reads the user's current row
before signing) and immediately resolving the returned access token
succeeds and yields exactly the identity `{userId: U.id, verified:
U.verified}`. -/
theorem issue_then_resolve_roundtrip (uid : String) (ua ip : Option String)
    (secret : String) (now : Nat) (db : DB) (u : UserRec)
    (hu : findById uid db = some u) (hid : u.id ≠ "") :
    ∃ a r db2, generateTokens uid ua ip secret now db = (some (a, r), db2)
      ∧ (validateAccessToken a secret now db2).1 = some u
      ∧ authenticationResolve (some a) secret now db2
        = { userId := some u.id, verified := some u.verified } := by
  have hgen : generateTokens uid ua ip secret now db
      = (some (signAccessToken u secret now, signRefreshToken u secret now),
         (storeRefreshToken u.id (signRefreshToken u secret now) ua ip now db).2) := by
    unfold generateTokens
    rw [hu]
  have hjwt : jwtVerify (signAccessToken u secret now) secret now
      = Except.ok (signAccessToken u secret now).claims := by
    unfold jwtVerify signAccessToken
    simp [accessTokenLifetime]
  have hpres : presentUserId (signAccessToken u secret now).claims = some u.id := by
    unfold presentUserId signAccessToken
    simp [hid]
  have hfind : findById u.id
      ((storeRefreshToken u.id (signRefreshToken u secret now) ua ip now db).2) = some u := by
    rw [findById_storeRefreshToken]
    rw [findById_eq_id hu]
    exact hu
  have hval : (validateAccessToken (signAccessToken u secret now) secret now
      ((storeRefreshToken u.id (signRefreshToken u secret now) ua ip now db).2)).1
      = some u := by
    simp only [validateAccessToken, hjwt, hpres, hfind]
    simp [signAccessToken]
  refine ⟨signAccessToken u secret now, signRefreshToken u secret now,
    (storeRefreshToken u.id (signRefreshToken u secret now) ua ip now db).2,
    hgen, hval, ?_⟩
  simp [authenticationResolve, hval]

/-- C8 witness at a concrete input. -/
theorem issue_then_resolve_roundtrip_witness :
    ∃ a r db2, generateTokens "u1" none none secret0 5 db0 = (some (a, r), db2)
      ∧ (validateAccessToken a secret0 5 db2).1 = some u0
      ∧ authenticationResolve (some a) secret0 5 db2
        = { userId := some u0.id, verified := some u0.verified } :=
  issue_then_resolve_roundtrip "u1" none none secret0 5 db0 u0 (by decide) (by decide)

/-- C10: a single successful `completePasswordReset` leaves the stored
tokenVersion two above the starting value: the reset update writes
`v + 1` together with the new password hash, and the `revokeAllSessions`
it then calls bumps the already-refreshed object's version once more. -/
theorem password_reset_double_bump (uid token newPw : String) (now : Nat) (db : DB)
    (u : UserRec)
    (hu : findById uid db = some u)
    (hrt : u.resetPasswordToken = some token)
    (hne : token ≠ "")
    (hts : resetTokenExpired u now = false) :
    ∃ fresh db2, completePasswordReset uid token newPw now db = (some fresh, db2)
      ∧ fresh.tokenVersion = u.tokenVersion + 2
      ∧ (findById uid db2).map UserRec.tokenVersion = some (u.tokenVersion + 2) := by
  have hid : u.id = uid := findById_eq_id hu
  subst hid
  have h1 : userUpdate u.id (resetPatch (bcryptHash newPw) (u.tokenVersion + 1)) db
      = (some (applyPatch u (resetPatch (bcryptHash newPw) (u.tokenVersion + 1))),
         { db with users := db.users.map (fun v =>
             if v.id == u.id then
               applyPatch v (resetPatch (bcryptHash newPw) (u.tokenVersion + 1)) else v) }) := by
    unfold userUpdate
    rw [hu]
  have hstep : completePasswordReset u.id token newPw now db
      = revokeAllSessions (applyPatch u (resetPatch (bcryptHash newPw) (u.tokenVersion + 1)))
          now { db with users := db.users.map (fun v =>
             if v.id == u.id then
               applyPatch v (resetPatch (bcryptHash newPw) (u.tokenVersion + 1)) else v) } := by
    simp only [completePasswordReset, hu, hrt, hts]
    rw [if_neg hne, if_neg (fun hh : ¬ token = token => hh rfl), if_neg (by simp), h1]
  have hfind1 : findById u.id { db with users := db.users.map (fun v =>
      if v.id == u.id then
        applyPatch v (resetPatch (bcryptHash newPw) (u.tokenVersion + 1)) else v) }
      = some (applyPatch u (resetPatch (bcryptHash newPw) (u.tokenVersion + 1))) := by
    have h2 := findById_userUpdate u.id (resetPatch (bcryptHash newPw) (u.tokenVersion + 1)) db
    rw [h1, hu] at h2
    simpa using h2
  rcases revokeAllSessions_found
      (applyPatch u (resetPatch (bcryptHash newPw) (u.tokenVersion + 1))) now
      { db with users := db.users.map (fun v =>
          if v.id == u.id then
            applyPatch v (resetPatch (bcryptHash newPw) (u.tokenVersion + 1)) else v) }
      (applyPatch u (resetPatch (bcryptHash newPw) (u.tokenVersion + 1)))
      (by simpa using hfind1)
    with ⟨fresh2, db2, hras, hver2, hfind2, _⟩
  refine ⟨fresh2, db2, ?_, ?_, ?_⟩
  · rw [hstep]
    exact hras
  · rw [hver2]
    rfl
  · have : findById u.id db2 = some fresh2 := by
      simpa using hfind2
    rw [this]
    simp [hver2, applyPatch, resetPatch]

/-- C10 witness at a concrete input. -/
theorem password_reset_double_bump_witness :
    ∃ fresh db2, completePasswordReset "u1" "rst" "npw" 50 db0 = (some fresh, db2)
      ∧ fresh.tokenVersion = u0.tokenVersion + 2
      ∧ (findById "u1" db2).map UserRec.tokenVersion = some (u0.tokenVersion + 2) :=
  password_reset_double_bump "u1" "rst" "npw" 50 db0 u0 (by decide) (by decide)
    (by decide) (by decide)

/-- C2 counterexample: starting from tokenVersion 0, the interleaving of
two concurrent `logOutEverywhere` calls in which both user reads happen
before either write leaves the stored tokenVersion at 1, not 2: the
claimed atomicity does not hold and one increment is lost. -/
theorem concurrent_revoke_all_loses_increment :
    (findById "u1" (logOutEverywhereRace "u1" 10 db0)).map UserRec.tokenVersion = some 1
    ∧ (findById "u1" (logOutEverywhereRace "u1" 10 db0)).map UserRec.tokenVersion
      ≠ some (0 + 2) := by
  exact ⟨by decide, by decide⟩

/-- C2 amended: the tokenVersion bump of `revokeAllSessions` is a
read-then-write in application code (`User.update` writes a
caller-precomputed value): two sequential revokeAll calls leave v + 2,
but the concurrent interleaving whose reads both precede the writes
leaves v + 1 — one increment is lost. -/
theorem revoke_all_read_then_write_lost_update (uid : String) (n1 n2 : Nat) (db : DB)
    (u : UserRec) (hu : findById uid db = some u) :
    (findById uid (logOutEverywhereRace uid n1 db)).map UserRec.tokenVersion
      = some (u.tokenVersion + 1)
    ∧ (findById uid ((logOutEverywhere (some uid) n2
        ((logOutEverywhere (some uid) n1 db).2)).2)).map UserRec.tokenVersion
      = some (u.tokenVersion + 2) := by
  have hid : u.id = uid := findById_eq_id hu
  subst hid
  rcases revokeAllSessions_found u n1 db u hu with ⟨f1, db1, h1, hv1, hf1, _⟩
  constructor
  · have hrace : logOutEverywhereRace u.id n1 db = (revokeAllSessions u n1 db1).2 := by
      simp only [logOutEverywhereRace, hu, h1]
    rcases revokeAllSessions_found u n1 db1 f1 hf1 with ⟨f2, db2, h2, hv2, hf2, _⟩
    rw [hrace, h2]
    show (findById u.id db2).map UserRec.tokenVersion = some (u.tokenVersion + 1)
    rw [hf2]
    simp [hv2]
  · have hlo1 : logOutEverywhere (some u.id) n1 db = (SimpleResult.ok, db1) := by
      simp only [logOutEverywhere, hu, h1]
    have hf1id : findById f1.id db1 = some f1 := by
      rw [findById_eq_id hf1]
      exact hf1
    rcases revokeAllSessions_found f1 n2 db1 f1 hf1id with ⟨f2, db2, h2, hv2, hf2, _⟩
    have hlo2 : logOutEverywhere (some u.id) n2 db1 = (SimpleResult.ok, db2) := by
      simp only [logOutEverywhere, hf1, h2]
    rw [hlo1]
    show (findById u.id ((logOutEverywhere (some u.id) n2 db1).2)).map UserRec.tokenVersion
      = some (u.tokenVersion + 2)
    rw [hlo2]
    show (findById u.id db2).map UserRec.tokenVersion = some (u.tokenVersion + 2)
    have : findById u.id db2 = some f2 := by
      rw [← findById_eq_id hf1]
      exact hf2
    rw [this]
    simp [hv2, hv1]

/-- C2 amended witness at a concrete input. -/
theorem revoke_all_read_then_write_lost_update_witness :
    (findById "u1" (logOutEverywhereRace "u1" 10 db0)).map UserRec.tokenVersion
      = some (u0.tokenVersion + 1)
    ∧ (findById "u1" ((logOutEverywhere (some "u1") 11
        ((logOutEverywhere (some "u1") 10 db0).2)).2)).map UserRec.tokenVersion
      = some (u0.tokenVersion + 2) :=
  revoke_all_read_then_write_lost_update "u1" 10 11 db0 u0 (by decide)

/-- C1 counterexample: two concurrent redeems of the identical raw token
`rt0`, interleaved so that both validations precede either revocation,
BOTH succeed and each issues a fresh token pair — the claimed
exactly-one guarantee fails under concurrency, because `revokeSession`
is unconditional and its affected-row count is never checked. -/
theorem concurrent_redeems_both_succeed :
    ((refreshSessionRace rt0 none none secret0 10 db0).1).isSuccess = true
    ∧ ((refreshSessionRace rt0 none none secret0 10 db0).2.1).isSuccess = true := by
  exact ⟨by decide, by decide⟩

/-- C1 amended: sequentially the property holds — a redeem that succeeds
revokes every session row matching the presented token, so any
subsequent redeem of the identical raw token fails with the
session-not-found-or-revoked answer (exactly one of the two sequential
redeems succeeds); under concurrent interleavings both can succeed. -/
theorem redeem_rotation_exactly_once_sequential (t : Token)
    (ua ip ua2 ip2 : Option String) (secret : String) (n1 : Nat) (db : DB) (u : UserRec)
    (hv : validateRefreshToken t secret n1 db = some u)
    (hiat : t.iat ≠ n1) :
    ((refreshSession (some t) ua ip secret n1 db).1).isSuccess = true
    ∧ ∀ n2, (refreshSession (some t) ua2 ip2 secret n2
        ((refreshSession (some t) ua ip secret n1 db).2)).1
      = RefreshResult.notAuthorized := by
  have hfind : findById u.id db = some u := validateRefreshToken_some hv
  have hfind1 : findById u.id (revokeSession t n1 db) = some u := by
    rw [findById_revokeSession]
    exact hfind
  have hgen : generateTokens u.id ua ip secret n1 (revokeSession t n1 db)
      = (some (signAccessToken u secret n1, signRefreshToken u secret n1),
         (storeRefreshToken u.id (signRefreshToken u secret n1) ua ip n1
           (revokeSession t n1 db)).2) := by
    unfold generateTokens
    rw [hfind1]
  have hred : refreshSession (some t) ua ip secret n1 db
      = (RefreshResult.success u (signAccessToken u secret n1) (signRefreshToken u secret n1),
         (storeRefreshToken u.id (signRefreshToken u secret n1) ua ip n1
           (revokeSession t n1 db)).2) := by
    simp only [refreshSession, hv, redeemSteps, hgen]
  have hneq : (sha256 (signRefreshToken u secret n1) == sha256 t) = false := by
    apply beq_eq_false_iff_ne.mpr
    intro hEq
    have h1 : signRefreshToken u secret n1 = t := congrArg Digest.tok hEq
    have h2 : n1 = t.iat := congrArg Token.iat h1
    exact hiat h2.symm
  constructor
  · rw [hred]
    rfl
  · intro n2
    rw [hred]
    apply refreshSession_notAuthorized_of_validate_none
    apply validateRefreshToken_none_of_no_live
    have hsplit : (storeRefreshToken u.id (signRefreshToken u secret n1) ua ip n1
        (revokeSession t n1 db)).2.sessions
        = (revokeSession t n1 db).sessions ++
          [{ sessionId := (revokeSession t n1 db).nextSessionId, userId := u.id,
             rtHash := sha256 (signRefreshToken u secret n1), userAgent := ua, ip := ip,
             createdAt := n1, expiresAt := n1 + refreshTokenLifetime,
             revokedAt := none }] := rfl
    unfold liveSessions
    rw [hsplit, List.filter_append]
    have h1 : (revokeSession t n1 db).sessions.filter
        (fun s => s.rtHash == sha256 t && s.revokedAt == none && n2 < s.expiresAt) = [] :=
      liveSessions_revokeSession t n1 n2 db
    have h2 : List.filter
        (fun s : SessionRec => s.rtHash == sha256 t && s.revokedAt == none && n2 < s.expiresAt)
        [({ sessionId := (revokeSession t n1 db).nextSessionId, userId := u.id,
            rtHash := sha256 (signRefreshToken u secret n1), userAgent := ua, ip := ip,
            createdAt := n1, expiresAt := n1 + refreshTokenLifetime,
            revokedAt := none } : SessionRec)] = [] := by
      simp [hneq]
    rw [h1, h2]
    rfl

/-- C1 amended witness at a concrete input: the first redeem of `rt0`
succeeds and the second, at any later time, fails. -/
theorem redeem_rotation_exactly_once_sequential_witness :
    ((refreshSession (some rt0) none none secret0 10 db0).1).isSuccess = true
    ∧ ∀ n2, (refreshSession (some rt0) none none secret0 n2
        ((refreshSession (some rt0) none none secret0 10 db0).2)).1
      = RefreshResult.notAuthorized :=
  redeem_rotation_exactly_once_sequential rt0 none none none none secret0 10 db0 u0
    (by decide) (by decide)

/-- C4: after `onPasswordChanged(U)` (the `completePasswordReset` path,
which calls `revokeAllSessions`) or `logoutEverywhere(U)` returns, every
session row of `U` carries `revokedAt`, and any refresh token issued to
`U` before the call — any token whose stored hash only ever matched
sessions of `U` — fails redeem with the controller's
session-not-found-or-revoked answer, at any later time.  The logout path
is unconditional; the password-reset path additionally assumes the reset
token presented matches the pending, non-empty, unexpired one, as the
code requires for the reset to succeed at all. -/
theorem password_change_and_logout_kill_refresh (uid token newPw : String)
    (now n2 : Nat) (db : DB) (u : UserRec) (t : Token) (ua ip : Option String)
    (secret : String)
    (hu : findById uid db = some u)
    (hm : ∀ s ∈ db.sessions, s.rtHash = sha256 t → s.userId = uid) :
    ((logOutEverywhere (some uid) now db).1 = SimpleResult.ok
     ∧ (∀ s ∈ ((logOutEverywhere (some uid) now db).2).sessions,
         s.userId = uid → s.revokedAt = some now)
     ∧ validateRefreshToken t secret n2 ((logOutEverywhere (some uid) now db).2) = none
     ∧ (refreshSession (some t) ua ip secret n2 ((logOutEverywhere (some uid) now db).2)).1
       = RefreshResult.notAuthorized)
    ∧ (u.resetPasswordToken = some token → token ≠ "" →
       resetTokenExpired u now = false →
       ∃ fresh db2, completePasswordReset uid token newPw now db = (some fresh, db2)
         ∧ (∀ s ∈ db2.sessions, s.userId = uid → s.revokedAt = some now)
         ∧ validateRefreshToken t secret n2 db2 = none
         ∧ (refreshSession (some t) ua ip secret n2 db2).1
           = RefreshResult.notAuthorized) := by
  have hid : u.id = uid := findById_eq_id hu
  subst hid
  constructor
  · exact logout_everywhere_kills_refresh u.id now n2 db u t ua ip secret hu hm
  · intro hrt hne hts
    have h1 : userUpdate u.id (resetPatch (bcryptHash newPw) (u.tokenVersion + 1)) db
        = (some (applyPatch u (resetPatch (bcryptHash newPw) (u.tokenVersion + 1))),
           { db with users := db.users.map (fun v =>
               if v.id == u.id then
                 applyPatch v (resetPatch (bcryptHash newPw) (u.tokenVersion + 1)) else v) }) := by
      unfold userUpdate
      rw [hu]
    have hstep : completePasswordReset u.id token newPw now db
        = revokeAllSessions
            (applyPatch u (resetPatch (bcryptHash newPw) (u.tokenVersion + 1))) now
            { db with users := db.users.map (fun v =>
                if v.id == u.id then
                  applyPatch v (resetPatch (bcryptHash newPw) (u.tokenVersion + 1)) else v) } := by
      simp only [completePasswordReset, hu, hrt, hts]
      rw [if_neg hne, if_neg (fun hh : ¬ token = token => hh rfl), if_neg (by simp), h1]
    have hfind1 : findById u.id { db with users := db.users.map (fun v =>
        if v.id == u.id then
          applyPatch v (resetPatch (bcryptHash newPw) (u.tokenVersion + 1)) else v) }
        = some (applyPatch u (resetPatch (bcryptHash newPw) (u.tokenVersion + 1))) := by
      have h2 := findById_userUpdate u.id
        (resetPatch (bcryptHash newPw) (u.tokenVersion + 1)) db
      rw [h1, hu] at h2
      simpa using h2
    rcases revokeAllSessions_found
        (applyPatch u (resetPatch (bcryptHash newPw) (u.tokenVersion + 1))) now
        { db with users := db.users.map (fun v =>
            if v.id == u.id then
              applyPatch v (resetPatch (bcryptHash newPw) (u.tokenVersion + 1)) else v) }
        (applyPatch u (resetPatch (bcryptHash newPw) (u.tokenVersion + 1)))
        (by simpa using hfind1)
      with ⟨fresh2, db2, hras, _, _, hsess⟩
    have hfid : (applyPatch u (resetPatch (bcryptHash newPw) (u.tokenVersion + 1))).id
        = u.id := rfl
    rw [hfid] at hsess
    have hsess2 : db2.sessions = db.sessions.map
        (fun s => if s.userId == u.id then { s with revokedAt := some now } else s) := hsess
    refine ⟨fresh2, db2, ?_, ?_, ?_, ?_⟩
    · rw [hstep]
      exact hras
    · intro s hs hsu
      rw [hsess2] at hs
      rcases List.mem_map.mp hs with ⟨s0, _, rfl⟩
      by_cases h0 : s0.userId = u.id
      · have hb : (s0.userId == u.id) = true := beq_iff_eq.mpr h0
        simp [hb]
      · have hb : ¬ ((s0.userId == u.id) = true) := by
          simp only [beq_iff_eq]
          exact h0
        rw [if_neg hb] at hsu ⊢
        exact absurd hsu h0
    · apply validateRefreshToken_none_of_no_live
      have hcongr : liveSessions (sha256 t) n2 db2
          = liveSessions (sha256 t) n2 (revokeAllRows u.id now db) := by
        apply liveSessions_congr
        rw [hsess2]
        rfl
      exact hcongr.trans (liveSessions_revokeAllRows (sha256 t) u.id now n2 db hm)
    · apply refreshSession_notAuthorized_of_validate_none
      apply validateRefreshToken_none_of_no_live
      have hcongr : liveSessions (sha256 t) n2 db2
          = liveSessions (sha256 t) n2 (revokeAllRows u.id now db) := by
        apply liveSessions_congr
        rw [hsess2]
        rfl
      exact hcongr.trans (liveSessions_revokeAllRows (sha256 t) u.id now n2 db hm)

/-- C4 witness: `u0` holds the live session `sess0` and a pending reset
token; both the logout path and the password-reset path leave the
session revoked and redeem failing, at concrete times. -/
theorem password_change_and_logout_kill_refresh_witness :
    ((logOutEverywhere (some "u1") 20 db0).1 = SimpleResult.ok
     ∧ (∀ s ∈ ((logOutEverywhere (some "u1") 20 db0).2).sessions,
         s.userId = "u1" → s.revokedAt = some 20)
     ∧ validateRefreshToken rt0 secret0 25 ((logOutEverywhere (some "u1") 20 db0).2) = none
     ∧ (refreshSession (some rt0) none none secret0 25
         ((logOutEverywhere (some "u1") 20 db0).2)).1 = RefreshResult.notAuthorized)
    ∧ (∃ fresh db2, completePasswordReset "u1" "rst" "npw" 20 db0 = (some fresh, db2)
        ∧ (∀ s ∈ db2.sessions, s.userId = "u1" → s.revokedAt = some 20)
        ∧ validateRefreshToken rt0 secret0 25 db2 = none
        ∧ (refreshSession (some rt0) none none secret0 25 db2).1
          = RefreshResult.notAuthorized) := by
  have h := password_change_and_logout_kill_refresh "u1" "rst" "npw" 20 25 db0 u0 rt0
    none none secret0 (by decide) (by decide)
  exact ⟨h.1, h.2 (by decide) (by decide) (by decide)⟩
